import Mathlib

/-!
Verification development for the Generation Reuse & Cache Engine
(`src/app.py`).  The Python code is shallowly embedded: strings are Lean
`String`s, SQLite tables are Lean lists kept in rowid (insertion) order,
floats are exact rationals, and each Flask route that the claims touch
becomes a pure state-transforming function.
-/

namespace OfferApp

/-- Whitespace characters recognized by Python's `str.strip`, `str.split`
and the regex class in `re.sub(r"\s+", " ", p)` (ASCII fragment). -/
def isPySpace (c : Char) : Bool :=
  c = ' ' || c = '\t' || c = '\n' || c = '\r' || c = Char.ofNat 11 || c = Char.ofNat 12

/-- Python `str.strip()`: drop leading and trailing whitespace. -/
def pyStrip (s : List Char) : List Char :=
  ((s.dropWhile isPySpace).reverse.dropWhile isPySpace).reverse

/-- Python `str.lower()` (ASCII fragment, as produced by `Char.toLower`). -/
def pyLower (s : List Char) : List Char :=
  s.map Char.toLower

/-- Effect of `re.sub(r"\s+", " ", s)`: every maximal run of whitespace
characters is replaced by a single space. -/
def collapseWS : List Char → List Char
  | [] => []
  | [c] => if isPySpace c then [' '] else [c]
  | c :: d :: rest =>
    if isPySpace c then
      (if isPySpace d then collapseWS (d :: rest) else ' ' :: collapseWS (d :: rest))
    else c :: collapseWS (d :: rest)

/-- Character-level body of `normalize_prompt`: strip, then lowercase, then
collapse whitespace runs (the exact order used at `src/app.py` lines 126-127). -/
def normalizeChars (s : List Char) : List Char :=
  collapseWS (pyLower (pyStrip s))

/-- The `normalize_prompt` function of `src/app.py` (line 125). -/
def normalize_prompt (p : String) : String :=
  ⟨normalizeChars p.data⟩

/-- The `prompt_hash` function of `src/app.py` (line 130).  The SHA-256
digest is modelled as an injective function of its input string, so the
digest is identified with the normalized string itself; distinct inputs are
assumed to give distinct digests (collision resistance), and equal inputs
give equal digests exactly as `hashlib.sha256` does. -/
def prompt_hash (p : String) : String :=
  normalize_prompt p

/-- Accumulator loop for Python `str.split()` with no separator: split on
whitespace runs, dropping empty pieces. -/
def splitGo : List Char → List Char → List (List Char)
  | [], acc => if acc.isEmpty then [] else [acc.reverse]
  | c :: rest, acc =>
    if isPySpace c then
      (if acc.isEmpty then splitGo rest [] else acc.reverse :: splitGo rest [])
    else splitGo rest (c :: acc)

/-- Python `str.split()` with no arguments. -/
def pySplit (s : String) : List String :=
  (splitGo s.data []).map (fun l => ⟨l⟩)

/-- The token set `set(normalize_prompt(p).split())` of `src/app.py`
line 135/142, represented as a duplicate-free list. -/
def tokenList (p : String) : List String :=
  (pySplit (normalize_prompt p)).dedup

/-- Cardinality of the intersection of two token sets (`len(tokens & tt)`),
for duplicate-free lists. -/
def interCard (a b : List String) : Nat :=
  (a.filter (fun t => b.contains t)).length

/-- Cardinality of the union of two token sets (`len(tokens | tt)`), for
duplicate-free lists. -/
def unionCard (a b : List String) : Nat :=
  a.length + (b.filter (fun t => !a.contains t)).length

/-- Jaccard similarity as computed at `src/app.py` line 144:
`len(tokens & tt) / max(1, len(tokens | tt))`, written with `mkRat` (equal
to the field division, see `jaccard_eq_div`). -/
def jaccard (a b : List String) : ℚ :=
  mkRat (interCard a b) (max 1 (unionCard a b))

/-- A row of the `prompt_cache` table (`src/app.py` lines 51-58).
`quality_score` is `REAL DEFAULT NULL`, hence an `Option ℚ`. -/
structure CacheEntry where
  hash : String
  prompt : String
  model_path : String
  provider : String
  quality_score : Option ℚ
deriving DecidableEq, Repr

/-- The scan loop of `find_similar_prompt` (`src/app.py` lines 141-147):
walk the rows in order, skip rows whose prompt has no tokens, and replace
the running best exactly when the new score is strictly greater. -/
def fsLoop (q : List String) : List CacheEntry → Option CacheEntry → ℚ → Option CacheEntry × ℚ
  | [], best, bestScore => (best, bestScore)
  | r :: rows, best, bestScore =>
    let tt := tokenList r.prompt
    if tt.isEmpty then fsLoop q rows best bestScore
    else if bestScore < jaccard q tt then fsLoop q rows (some r) (jaccard q tt)
    else fsLoop q rows best bestScore

/-- The `find_similar_prompt` function of `src/app.py` (lines 133-150).
The cache rows are passed in table scan order. -/
def find_similar_prompt (cache : List CacheEntry) (p : String) (threshold : ℚ) : Option CacheEntry :=
  let tokens := tokenList p
  if tokens.isEmpty then none
  else
    match fsLoop tokens cache none 0 with
    | (some b, s) => if threshold ≤ s then some b else none
    | (none, _) => none

/-- The similarity threshold `0.92` passed at `src/app.py` line 201. -/
def simThreshold : ℚ := mkRat 92 100

/-- The quality gate constant `3.5` of `src/app.py` line 202. -/
def qualityGate : ℚ := mkRat 7 2

/-- Generation mode: the `mode` form field, `'text'` or `'image'`. -/
inductive Mode
  | text
  | image
deriving DecidableEq, Repr

/-- A row of the `generations` table (`src/app.py` lines 29-41).
`image_path` holds the basename of the stored upload (the part of the path
that the fingerprint and feedback logic consume). -/
structure GenRecord where
  id : Nat
  prompt : String
  mode : Mode
  image_path : Option String
  provider : String
  model_path : String
  status : String
  duration_ms : Nat
  cache_hit : Nat
  reuse_of : Option Nat
deriving DecidableEq, Repr

/-- A row of the `feedback` table (`src/app.py` lines 42-50). -/
structure FeedbackRecord where
  id : Nat
  generation_id : Nat
  rating : Int
  issues : List String
  comment : String
deriving DecidableEq, Repr

/-- The whole persistent store: the three tables, each in rowid order. -/
structure AppState where
  generations : List GenRecord
  feedback : List FeedbackRecord
  prompt_cache : List CacheEntry
deriving DecidableEq, Repr

/-- An incoming `/generate` request (`src/app.py` lines 162-172).
`image_ref` is the basename of the saved upload, `none` when no image was
uploaded (also always `none` in text mode, since the file is saved only when
`mode == "image"`). -/
structure Request where
  mode : Mode
  prompt : String
  provider_key : String
  reuse_policy : String
  image_ref : Option String
deriving DecidableEq, Repr

/-- The key string hashed at `src/app.py` line 175:
`prompt if mode=="text" else prompt + f"::image@{basename or 'none'}"`. -/
def fingerprint_key (mode : Mode) (prompt : String) (imageRef : Option String) : String :=
  match mode with
  | Mode.text => prompt
  | Mode.image => prompt ++ "::image@" ++ imageRef.getD "none"

/-- The fingerprint `h` computed at `src/app.py` line 175 (and recomputed at
line 249 for feedback). -/
def request_fingerprint (mode : Mode) (prompt : String) (imageRef : Option String) : String :=
  prompt_hash (fingerprint_key mode prompt imageRef)

/-- The exact-hit lookup `SELECT * FROM prompt_cache WHERE hash=?`
(`src/app.py` line 177); `hash` is the primary key, so the first matching
row is the only one. -/
def exactLookup (cache : List CacheEntry) (h : String) : Option CacheEntry :=
  cache.find? (fun e => e.hash == h)

/-- Resolution of the provider key through `PROVIDERS.get(key, meshy)`
(`src/app.py` lines 117-122 and 211): an unknown key falls back to the
`meshy` provider; each provider records its own slug. -/
def providerSlug (key : String) : String :=
  if key = "mock" ∨ key = "meshy" ∨ key = "kaedim" ∨ key = "tripoSR" then key else "meshy"

/-- Result of a provider `generate` call (`src/app.py` line 212): the output
asset path and the measured wall-clock duration.  Passed in as a parameter
since provider output and timing are external to the engine. -/
structure ProviderResult where
  out_path : String
  dur_ms : Nat
deriving DecidableEq, Repr

/-- The `record_generation` closure of `src/app.py` lines 182-189: append a
row to `generations`; the fresh rowid is the row count plus one. -/
def record_generation (st : AppState) (req : Request) (mp provider_label : String)
    (dur cacheHit : Nat) : AppState × GenRecord :=
  let g : GenRecord :=
    { id := st.generations.length + 1
      prompt := req.prompt
      mode := req.mode
      image_path := req.image_ref
      provider := provider_label
      model_path := mp
      status := "ok"
      duration_ms := dur
      cache_hit := cacheHit
      reuse_of := none }
  ({ st with generations := st.generations ++ [g] }, g)

/-- The cache upsert of `src/app.py` lines 216-218:
`INSERT OR REPLACE INTO prompt_cache(...) VALUES(?,?,?,?,COALESCE((SELECT
quality_score FROM prompt_cache WHERE hash=?), NULL), ...)`.  The subquery
reads the pre-existing quality score (NULL when the row is absent); the
replaced row is deleted and the new row inserted with a fresh rowid, hence
at the end of the scan order. -/
def cacheUpsert (cache : List CacheEntry) (h p mp prov : String) : List CacheEntry :=
  let oldq := (cache.find? (fun e => e.hash == h)).bind (fun e => e.quality_score)
  (cache.filter (fun e => !(e.hash == h))) ++
    [{ hash := h, prompt := p, model_path := mp, provider := prov, quality_score := oldq }]

/-- The fresh-generation tail of `generate` (`src/app.py` lines 210-219):
call the provider, record the generation, then upsert the cache row. -/
def freshGenerate (st : AppState) (req : Request) (pr : ProviderResult) (h : String) :
    AppState × GenRecord :=
  let sg := record_generation st req pr.out_path (providerSlug req.provider_key) pr.dur_ms 0
  ({ sg.1 with
      prompt_cache := cacheUpsert sg.1.prompt_cache h req.prompt pr.out_path
        (providerSlug req.provider_key) },
   sg.2)

/-- Python truthiness of `sim["quality_score"] or 4.0` at `src/app.py`
line 202: `None` and `0.0` are falsy and become `4.0`; every other float is
kept. -/
def pyOrQuality (q : Option ℚ) : ℚ :=
  match q with
  | none => 4
  | some v => if v = 0 then 4 else v

/-- The `/generate` route (`src/app.py` lines 160-222) as a state
transformer.  Mirrors the branch order of the code: exact reuse when the
policy is `always` or `smart` and the fingerprint row exists; similar reuse
when the policy is `smart`, no exact row exists, and a similarity match at
threshold `0.92` passes the truthy quality gate `>= 3.5`; otherwise a fresh
provider generation followed by the cache upsert. -/
def generate (st : AppState) (req : Request) (pr : ProviderResult) : AppState × GenRecord :=
  let h := request_fingerprint req.mode req.prompt req.image_ref
  match exactLookup st.prompt_cache h with
  | some r =>
    if req.reuse_policy = "always" ∨ req.reuse_policy = "smart" then
      record_generation st req r.model_path r.provider 0 1
    else
      freshGenerate st req pr h
  | none =>
    if req.reuse_policy = "smart" then
      match find_similar_prompt st.prompt_cache req.prompt simThreshold with
      | some sim =>
        if qualityGate ≤ pyOrQuality sim.quality_score then
          record_generation st req sim.model_path "cache-similar" 0 2
        else
          freshGenerate st req pr h
      | none => freshGenerate st req pr h
    else
      freshGenerate st req pr h

/-- Ratings pooled by literal prompt text (`src/app.py` line 250):
`SELECT AVG(rating) FROM feedback WHERE generation_id IN (SELECT id FROM
generations WHERE prompt=?)` — the list of ratings the average ranges over. -/
def pooledRatings (gens : List GenRecord) (fbs : List FeedbackRecord) (p : String) : List Int :=
  (fbs.filter (fun f =>
      ((gens.filter (fun g => g.prompt == p)).map (fun g => g.id)).contains f.generation_id)).map
    (fun f => f.rating)

/-- Arithmetic mean of a rating list (SQLite `AVG` over an integer column),
written with `mkRat` (equal to the field division, see `meanRating_eq_div`). -/
def meanRating (l : List Int) : ℚ :=
  mkRat l.sum l.length

/-- The `UPDATE prompt_cache SET quality_score=? WHERE hash=?` statement
(`src/app.py` line 252). -/
def updateQuality (cache : List CacheEntry) (h : String) (q : ℚ) : List CacheEntry :=
  cache.map (fun e => if e.hash == h then { e with quality_score := some q } else e)

/-- The `/feedback/<gen_id>` route (`src/app.py` lines 238-256) as a state
transformer: insert the feedback row unconditionally, then, if the rated
generation exists, recompute the prompt-pooled average and write it into the
cache row of the generation's fingerprint when the average is truthy
(non-NULL and nonzero). -/
def feedback (st : AppState) (gen_id : Nat) (rating : Int) (issues : List String)
    (comment : String) : AppState :=
  let st1 : AppState :=
    { st with
        feedback := st.feedback ++
          [{ id := st.feedback.length + 1, generation_id := gen_id, rating := rating,
             issues := issues, comment := comment }] }
  match st1.generations.find? (fun g => g.id == gen_id) with
  | none => st1
  | some g =>
    let h := request_fingerprint g.mode g.prompt g.image_path
    let pool := pooledRatings st1.generations st1.feedback g.prompt
    if pool ≠ [] ∧ meanRating pool ≠ 0 then
      { st1 with prompt_cache := updateQuality st1.prompt_cache h (meanRating pool) }
    else st1

/-- The `jaccard` definition is the field division `|a ∩ b| / max 1 |a ∪ b|`. -/
theorem jaccard_eq_div (a b : List String) :
    jaccard a b = (interCard a b : ℚ) / (max 1 (unionCard a b) : ℚ) := by
  have h := Rat.mkRat_eq_div (interCard a b : ℤ) (max 1 (unionCard a b))
  simpa [jaccard, Nat.cast_max] using h

/-- Branch lemma: exact reuse (`src/app.py` lines 191-198). -/
theorem generate_exact (st : AppState) (req : Request) (pr : ProviderResult) (r : CacheEntry)
    (hrow : exactLookup st.prompt_cache
      (request_fingerprint req.mode req.prompt req.image_ref) = some r)
    (hpol : req.reuse_policy = "always" ∨ req.reuse_policy = "smart") :
    generate st req pr = record_generation st req r.model_path r.provider 0 1 := by
  unfold generate
  simp only [hrow, if_pos hpol]

/-- Branch lemma: exact row present but the policy allows no reuse
(`src/app.py` line 191 condition false, fall through to line 211). -/
theorem generate_exact_skipped (st : AppState) (req : Request) (pr : ProviderResult)
    (r : CacheEntry)
    (hrow : exactLookup st.prompt_cache
      (request_fingerprint req.mode req.prompt req.image_ref) = some r)
    (hpol : ¬(req.reuse_policy = "always" ∨ req.reuse_policy = "smart")) :
    generate st req pr =
      freshGenerate st req pr (request_fingerprint req.mode req.prompt req.image_ref) := by
  unfold generate
  simp only [hrow, if_neg hpol]

/-- Branch lemma: similar reuse (`src/app.py` lines 200-208). -/
theorem generate_similar (st : AppState) (req : Request) (pr : ProviderResult) (e : CacheEntry)
    (hrow : exactLookup st.prompt_cache
      (request_fingerprint req.mode req.prompt req.image_ref) = none)
    (hpol : req.reuse_policy = "smart")
    (hsim : find_similar_prompt st.prompt_cache req.prompt simThreshold = some e)
    (hq : qualityGate ≤ pyOrQuality e.quality_score) :
    generate st req pr = record_generation st req e.model_path "cache-similar" 0 2 := by
  unfold generate
  simp only [hrow, if_pos hpol]
  rw [hsim]
  simp only [if_pos hq]

/-- Branch lemma: similarity match found but rejected by the quality gate
(`src/app.py` line 202 condition false, fall through to line 211). -/
theorem generate_similar_lowq (st : AppState) (req : Request) (pr : ProviderResult)
    (e : CacheEntry)
    (hrow : exactLookup st.prompt_cache
      (request_fingerprint req.mode req.prompt req.image_ref) = none)
    (hpol : req.reuse_policy = "smart")
    (hsim : find_similar_prompt st.prompt_cache req.prompt simThreshold = some e)
    (hq : ¬ qualityGate ≤ pyOrQuality e.quality_score) :
    generate st req pr =
      freshGenerate st req pr (request_fingerprint req.mode req.prompt req.image_ref) := by
  unfold generate
  simp only [hrow, if_pos hpol]
  rw [hsim]
  simp only [if_neg hq]

/-- Branch lemma: smart policy, no exact row and no similarity match
(`src/app.py` fall through to line 211). -/
theorem generate_similar_none (st : AppState) (req : Request) (pr : ProviderResult)
    (hrow : exactLookup st.prompt_cache
      (request_fingerprint req.mode req.prompt req.image_ref) = none)
    (hpol : req.reuse_policy = "smart")
    (hsim : find_similar_prompt st.prompt_cache req.prompt simThreshold = none) :
    generate st req pr =
      freshGenerate st req pr (request_fingerprint req.mode req.prompt req.image_ref) := by
  unfold generate
  simp only [hrow, if_pos hpol]
  rw [hsim]

/-- Branch lemma: no exact row and the policy is not `smart`
(`src/app.py` fall through to line 211). -/
theorem generate_not_smart (st : AppState) (req : Request) (pr : ProviderResult)
    (hrow : exactLookup st.prompt_cache
      (request_fingerprint req.mode req.prompt req.image_ref) = none)
    (hpol : ¬ req.reuse_policy = "smart") :
    generate st req pr =
      freshGenerate st req pr (request_fingerprint req.mode req.prompt req.image_ref) := by
  unfold generate
  simp only [hrow, if_neg hpol]

/-- Overwrite the stored quality score of the cache row keyed `h` (used to
state that a decision branch never reads that column). -/
def setEntryQuality (cache : List CacheEntry) (h : String) (q : Option ℚ) : List CacheEntry :=
  cache.map (fun e => if e.hash == h then { e with quality_score := q } else e)

/-- Changing only `quality_score` leaves the row key unchanged. -/
theorem setQual_hash (e : CacheEntry) (h : String) (q : Option ℚ) :
    (if e.hash == h then { e with quality_score := q } else e).hash = e.hash := by
  split <;> rfl

/-- Exact lookup commutes with a quality-score overwrite. -/
theorem exactLookup_setEntryQuality (cache : List CacheEntry) (h k : String) (q : Option ℚ) :
    exactLookup (setEntryQuality cache h q) k =
      (exactLookup cache k).map
        (fun e => if e.hash == h then { e with quality_score := q } else e) := by
  induction cache with
  | nil => rfl
  | cons e rest ih =>
    simp only [setEntryQuality, List.map_cons, exactLookup, List.find?_cons] at *
    rw [setQual_hash]
    cases hek : (e.hash == k) with
    | false => simpa using ih
    | true => simp

/-- The `meanRating` definition is the field division `sum / length`. -/
theorem meanRating_eq_div (l : List Int) :
    meanRating l = (l.sum : ℚ) / (l.length : ℚ) := by
  simpa [meanRating] using Rat.mkRat_eq_div l.sum l.length

/-- C1: for every request whose `reuse_policy` is `always` or `smart` and
whose fingerprint has an exact cache row, `generate` performs exact reuse:
the written GenerationRecord has `cache_hit = 1`, the entry's `model_path`
and stored provider, and duration `0`; only that record is appended (cache
and feedback untouched); the result does not depend on the provider result
(no provider call), and it does not depend on the entry's `quality_score`. -/
theorem C1_exact_reuse (st : AppState) (req : Request) (pr pr' : ProviderResult)
    (q' : Option ℚ) (r : CacheEntry)
    (hpol : req.reuse_policy = "always" ∨ req.reuse_policy = "smart")
    (hrow : exactLookup st.prompt_cache
      (request_fingerprint req.mode req.prompt req.image_ref) = some r) :
    (generate st req pr).2.cache_hit = 1
    ∧ (generate st req pr).2.model_path = r.model_path
    ∧ (generate st req pr).2.provider = r.provider
    ∧ (generate st req pr).2.duration_ms = 0
    ∧ (generate st req pr).1 =
        { st with generations := st.generations ++ [(generate st req pr).2] }
    ∧ generate st req pr' = generate st req pr
    ∧ (generate { st with prompt_cache :=
            setEntryQuality st.prompt_cache r.hash q' } req pr).2 =
        (generate st req pr).2 := by
  have hkey : (r.hash ==
      request_fingerprint req.mode req.prompt req.image_ref) = true := by
    have h2 := List.find?_some (show st.prompt_cache.find?
      (fun e => e.hash == request_fingerprint req.mode req.prompt req.image_ref) = some r
      from hrow)
    exact h2
  have hgen := generate_exact st req pr r hrow hpol
  have hgen' := generate_exact st req pr' r hrow hpol
  have hrow2 : exactLookup (setEntryQuality st.prompt_cache r.hash q')
      (request_fingerprint req.mode req.prompt req.image_ref) =
      some { r with quality_score := q' } := by
    rw [exactLookup_setEntryQuality, hrow]
    simp
  have hgen2 := generate_exact
    { st with prompt_cache := setEntryQuality st.prompt_cache r.hash q' }
    req pr { r with quality_score := q' } hrow2 hpol
  rw [hgen, hgen', hgen2]
  refine ⟨rfl, rfl, rfl, rfl, rfl, rfl, rfl⟩

/-- C1 witness: a concrete exact-reuse run under policy `always`. -/
theorem C1_exact_reuse_witness :
    (generate ⟨[], [], [⟨"a b", "a b", "m.obj", "mock", some 2⟩]⟩
        ⟨Mode.text, "a b", "mock", "always", none⟩ ⟨"x.obj", 9⟩).2.cache_hit = 1
    ∧ (generate ⟨[], [], [⟨"a b", "a b", "m.obj", "mock", some 2⟩]⟩
        ⟨Mode.text, "a b", "mock", "always", none⟩ ⟨"x.obj", 9⟩).2.model_path =
        (⟨"a b", "a b", "m.obj", "mock", some 2⟩ : CacheEntry).model_path
    ∧ (generate ⟨[], [], [⟨"a b", "a b", "m.obj", "mock", some 2⟩]⟩
        ⟨Mode.text, "a b", "mock", "always", none⟩ ⟨"x.obj", 9⟩).2.provider =
        (⟨"a b", "a b", "m.obj", "mock", some 2⟩ : CacheEntry).provider
    ∧ (generate ⟨[], [], [⟨"a b", "a b", "m.obj", "mock", some 2⟩]⟩
        ⟨Mode.text, "a b", "mock", "always", none⟩ ⟨"x.obj", 9⟩).2.duration_ms = 0
    ∧ (generate ⟨[], [], [⟨"a b", "a b", "m.obj", "mock", some 2⟩]⟩
        ⟨Mode.text, "a b", "mock", "always", none⟩ ⟨"x.obj", 9⟩).1 =
        { (⟨[], [], [⟨"a b", "a b", "m.obj", "mock", some 2⟩]⟩ : AppState) with
            generations := [] ++ [(generate ⟨[], [], [⟨"a b", "a b", "m.obj", "mock", some 2⟩]⟩
              ⟨Mode.text, "a b", "mock", "always", none⟩ ⟨"x.obj", 9⟩).2] }
    ∧ generate ⟨[], [], [⟨"a b", "a b", "m.obj", "mock", some 2⟩]⟩
        ⟨Mode.text, "a b", "mock", "always", none⟩ ⟨"y.obj", 11⟩ =
      generate ⟨[], [], [⟨"a b", "a b", "m.obj", "mock", some 2⟩]⟩
        ⟨Mode.text, "a b", "mock", "always", none⟩ ⟨"x.obj", 9⟩
    ∧ (generate { (⟨[], [], [⟨"a b", "a b", "m.obj", "mock", some 2⟩]⟩ : AppState) with
          prompt_cache := setEntryQuality [⟨"a b", "a b", "m.obj", "mock", some 2⟩] "a b" (some 1) }
        ⟨Mode.text, "a b", "mock", "always", none⟩ ⟨"x.obj", 9⟩).2 =
      (generate ⟨[], [], [⟨"a b", "a b", "m.obj", "mock", some 2⟩]⟩
        ⟨Mode.text, "a b", "mock", "always", none⟩ ⟨"x.obj", 9⟩).2 :=
  C1_exact_reuse ⟨[], [], [⟨"a b", "a b", "m.obj", "mock", some 2⟩]⟩
    ⟨Mode.text, "a b", "mock", "always", none⟩ ⟨"x.obj", 9⟩ ⟨"y.obj", 11⟩
    (some 1) ⟨"a b", "a b", "m.obj", "mock", some 2⟩
    (Or.inl rfl) (by decide)

/-- C10: a TEXT-mode request whose literal prompt is `p ++ "::image@none"`
has exactly the fingerprint of an IMAGE-mode request with prompt `p` and no
uploaded image: the mode marker is injected by plain string concatenation
before hashing, so the two key strings coincide. -/
theorem C10_text_image_collision (p : String) :
    request_fingerprint Mode.text (p ++ "::image@none") none =
      request_fingerprint Mode.image p none := by
  have h1 : ("::image@" : String) ++ "none" = "::image@none" := by decide
  unfold request_fingerprint fingerprint_key
  simp only [Option.getD, String.append_assoc, h1]

/-- C10 at a concrete prompt: the crafted TEXT prompt and the plain IMAGE
request share one fingerprint. -/
theorem C10_text_image_collision_witness :
    request_fingerprint Mode.text ("a red dragon" ++ "::image@none") none =
      request_fingerprint Mode.image "a red dragon" none :=
  C10_text_image_collision "a red dragon"

/-- C5 counterexample: for `generation_id = 1` in the empty store (so the
id does not exist), the feedback route still appends the FeedbackRecord and
reports no failure. -/
theorem C5_counterexample :
    (AppState.mk [] [] []).generations.find? (fun g => g.id == (1 : Nat)) = none
    ∧ (feedback ⟨[], [], []⟩ 1 5 [] "").feedback =
        [{ id := 1, generation_id := 1, rating := 5, issues := [], comment := "" }] := by
  constructor
  · rfl
  · rfl

/-- C5 amended: when `generation_id` references no GenerationRecord, the
feedback route appends the FeedbackRecord anyway (the insert happens before
the existence check) and performs no other change; no `NotFound` failure
occurs in the feedback operation itself. -/
theorem C5_amended_feedback_unchecked (st : AppState) (gid : Nat) (r : Int)
    (iss : List String) (c : String)
    (hg : st.generations.find? (fun g => g.id == gid) = none) :
    feedback st gid r iss c =
      { st with feedback := st.feedback ++
          [{ id := st.feedback.length + 1, generation_id := gid, rating := r,
             issues := iss, comment := c }] } := by
  unfold feedback
  simp only [hg]

/-- C5 witness: the amended statement at a concrete nonexistent id. -/
theorem C5_amended_feedback_unchecked_witness :
    feedback ⟨[], [], []⟩ 2 4 ["bad"] "hi" =
      { (⟨[], [], []⟩ : AppState) with feedback :=
          [] ++ [{ id := 1, generation_id := 2, rating := 4,
                   issues := ["bad"], comment := "hi" }] } :=
  C5_amended_feedback_unchecked ⟨[], [], []⟩ 2 4 ["bad"] "hi" rfl

/-- C9: in the smart similar-reuse gate, a matched cache entry whose
`quality_score` is exactly `0.0` is treated like NULL (Python `or` treats
`0.0` as falsy, substituting `4.0`), so the entry is offered for similar
reuse (`cache_hit = 2`, the entry's asset, duration 0, no cache write) even
though `0.0 < 3.5`. -/
theorem C9_zero_score_is_offered (st : AppState) (req : Request) (pr : ProviderResult)
    (e : CacheEntry)
    (hpol : req.reuse_policy = "smart")
    (hrow : exactLookup st.prompt_cache
      (request_fingerprint req.mode req.prompt req.image_ref) = none)
    (hsim : find_similar_prompt st.prompt_cache req.prompt simThreshold = some e)
    (hq : e.quality_score = some 0) :
    (generate st req pr).2.cache_hit = 2
    ∧ (generate st req pr).2.model_path = e.model_path
    ∧ (generate st req pr).2.duration_ms = 0
    ∧ (generate st req pr).1.prompt_cache = st.prompt_cache := by
  have hgate : qualityGate ≤ pyOrQuality e.quality_score := by
    rw [hq]; decide
  rw [generate_similar st req pr e hrow hpol hsim hgate]
  refine ⟨rfl, rfl, rfl, rfl⟩

/-- C9 witness: a concrete zero-rated entry with full token overlap is
reused. -/
theorem C9_zero_score_is_offered_witness :
    (generate ⟨[], [], [⟨"zzz", "red dragon", "m.obj", "mock", some 0⟩]⟩
        ⟨Mode.text, "red dragon", "mock", "smart", none⟩ ⟨"new.obj", 5⟩).2.cache_hit = 2
    ∧ (generate ⟨[], [], [⟨"zzz", "red dragon", "m.obj", "mock", some 0⟩]⟩
        ⟨Mode.text, "red dragon", "mock", "smart", none⟩ ⟨"new.obj", 5⟩).2.model_path =
        (⟨"zzz", "red dragon", "m.obj", "mock", some 0⟩ : CacheEntry).model_path
    ∧ (generate ⟨[], [], [⟨"zzz", "red dragon", "m.obj", "mock", some 0⟩]⟩
        ⟨Mode.text, "red dragon", "mock", "smart", none⟩ ⟨"new.obj", 5⟩).2.duration_ms = 0
    ∧ (generate ⟨[], [], [⟨"zzz", "red dragon", "m.obj", "mock", some 0⟩]⟩
        ⟨Mode.text, "red dragon", "mock", "smart", none⟩ ⟨"new.obj", 5⟩).1.prompt_cache =
        [⟨"zzz", "red dragon", "m.obj", "mock", some 0⟩] :=
  C9_zero_score_is_offered ⟨[], [], [⟨"zzz", "red dragon", "m.obj", "mock", some 0⟩]⟩
    ⟨Mode.text, "red dragon", "mock", "smart", none⟩ ⟨"new.obj", 5⟩
    ⟨"zzz", "red dragon", "m.obj", "mock", some 0⟩
    rfl (by decide) (by decide) rfl

/-- Modelled from the spec's words for claim C2 only: the similar-reuse
quality gate as the spec states it, where exactly NULL is treated as `4.0`
and every present score is compared against `3.5` as is. -/
def smartGateSpec (q : Option ℚ) : Prop :=
  qualityGate ≤ q.getD 4

/-- C2 counterexample: a cache entry with `quality_score = 0.0` and perfect
token overlap is offered for similar reuse (`cache_hit = 2`) although the
spec-stated gate (NULL treated as 4.0, so 0.0 stays 0.0 < 3.5) rejects it,
refuting the claimed if-and-only-if. -/
theorem C2_counterexample :
    (generate ⟨[], [], [⟨"zzz", "blue dragon", "m.obj", "mock", some 0⟩]⟩
        ⟨Mode.text, "blue dragon", "mock", "smart", none⟩ ⟨"new.obj", 5⟩).2.cache_hit = 2
    ∧ find_similar_prompt [⟨"zzz", "blue dragon", "m.obj", "mock", some 0⟩]
        "blue dragon" simThreshold =
        some ⟨"zzz", "blue dragon", "m.obj", "mock", some 0⟩
    ∧ ¬ smartGateSpec (some 0) := by
  refine ⟨by decide, by decide, ?_⟩
  unfold smartGateSpec
  decide

/-- C2 amended: for a smart request with no exact row, similar reuse
(`cache_hit = 2`) occurs iff the similarity index returns a match at
threshold `0.92` whose `quality_score` — with NULL *and* `0.0` both treated
as `4.0`, by Python `or` falsiness — is `>= 3.5`; a reused match supplies
its `model_path`, the synthetic provider label and duration `0`; a match
with score `3.0` is never offered, one with score `4.0` or NULL always is. -/
theorem C2_smart_gating (st : AppState) (req : Request) (pr : ProviderResult)
    (hpol : req.reuse_policy = "smart")
    (hrow : exactLookup st.prompt_cache
      (request_fingerprint req.mode req.prompt req.image_ref) = none) :
    ((generate st req pr).2.cache_hit = 2 ↔
      ∃ e, find_similar_prompt st.prompt_cache req.prompt simThreshold = some e
        ∧ qualityGate ≤ pyOrQuality e.quality_score)
    ∧ (∀ e, find_similar_prompt st.prompt_cache req.prompt simThreshold = some e →
        qualityGate ≤ pyOrQuality e.quality_score →
          (generate st req pr).2.model_path = e.model_path
          ∧ (generate st req pr).2.provider = "cache-similar"
          ∧ (generate st req pr).2.duration_ms = 0)
    ∧ (∀ e, find_similar_prompt st.prompt_cache req.prompt simThreshold = some e →
        e.quality_score = some 3 → (generate st req pr).2.cache_hit = 0)
    ∧ (∀ e, find_similar_prompt st.prompt_cache req.prompt simThreshold = some e →
        (e.quality_score = some 4 ∨ e.quality_score = none) →
          (generate st req pr).2.cache_hit = 2) := by
  cases hsim : find_similar_prompt st.prompt_cache req.prompt simThreshold with
  | none =>
    rw [generate_similar_none st req pr hrow hpol hsim]
    refine ⟨?_, ?_, ?_, ?_⟩
    · constructor
      · intro h2
        exact absurd h2 (by simp [freshGenerate, record_generation])
      · rintro ⟨e, he, -⟩
        exact Option.noConfusion he
    · intro e he
      exact Option.noConfusion he
    · intro e he
      exact Option.noConfusion he
    · intro e he
      exact Option.noConfusion he
  | some e =>
    by_cases hq : qualityGate ≤ pyOrQuality e.quality_score
    · rw [generate_similar st req pr e hrow hpol hsim hq]
      refine ⟨?_, ?_, ?_, ?_⟩
      · exact ⟨fun _ => ⟨e, rfl, hq⟩, fun _ => rfl⟩
      · intro e' he' _
        cases Option.some.inj he'
        exact ⟨rfl, rfl, rfl⟩
      · intro e' he' h3
        cases Option.some.inj he'
        rw [h3] at hq
        exact absurd hq (by decide)
      · intro e' _ _
        rfl
    · rw [generate_similar_lowq st req pr e hrow hpol hsim hq]
      refine ⟨?_, ?_, ?_, ?_⟩
      · constructor
        · intro h2
          exact absurd h2 (by simp [freshGenerate, record_generation])
        · rintro ⟨e', he', hq'⟩
          cases Option.some.inj he'
          exact absurd hq' hq
      · intro e' he' hq'
        cases Option.some.inj he'
        exact absurd hq' hq
      · intro e' he' _
        simp [freshGenerate, record_generation]
      · intro e' he' h4
        cases Option.some.inj he'
        rcases h4 with h4 | h4 <;> rw [h4] at hq <;> exact absurd (by decide) hq

/-- C2 witness: the amended gate characterization at a concrete smart
request with one unrated (NULL-score) full-overlap cache entry. -/
theorem C2_smart_gating_witness :
    ((generate ⟨[], [], [⟨"zzz", "green dragon", "m.obj", "mock", none⟩]⟩
        ⟨Mode.text, "green dragon", "mock", "smart", none⟩ ⟨"n.obj", 3⟩).2.cache_hit = 2 ↔
      ∃ e, find_similar_prompt [⟨"zzz", "green dragon", "m.obj", "mock", none⟩]
          "green dragon" simThreshold = some e
        ∧ qualityGate ≤ pyOrQuality e.quality_score)
    ∧ (∀ e, find_similar_prompt [⟨"zzz", "green dragon", "m.obj", "mock", none⟩]
          "green dragon" simThreshold = some e →
        qualityGate ≤ pyOrQuality e.quality_score →
          (generate ⟨[], [], [⟨"zzz", "green dragon", "m.obj", "mock", none⟩]⟩
            ⟨Mode.text, "green dragon", "mock", "smart", none⟩ ⟨"n.obj", 3⟩).2.model_path =
              e.model_path
          ∧ (generate ⟨[], [], [⟨"zzz", "green dragon", "m.obj", "mock", none⟩]⟩
            ⟨Mode.text, "green dragon", "mock", "smart", none⟩ ⟨"n.obj", 3⟩).2.provider =
              "cache-similar"
          ∧ (generate ⟨[], [], [⟨"zzz", "green dragon", "m.obj", "mock", none⟩]⟩
            ⟨Mode.text, "green dragon", "mock", "smart", none⟩ ⟨"n.obj", 3⟩).2.duration_ms = 0)
    ∧ (∀ e, find_similar_prompt [⟨"zzz", "green dragon", "m.obj", "mock", none⟩]
          "green dragon" simThreshold = some e →
        e.quality_score = some 3 →
          (generate ⟨[], [], [⟨"zzz", "green dragon", "m.obj", "mock", none⟩]⟩
            ⟨Mode.text, "green dragon", "mock", "smart", none⟩ ⟨"n.obj", 3⟩).2.cache_hit = 0)
    ∧ (∀ e, find_similar_prompt [⟨"zzz", "green dragon", "m.obj", "mock", none⟩]
          "green dragon" simThreshold = some e →
        (e.quality_score = some 4 ∨ e.quality_score = none) →
          (generate ⟨[], [], [⟨"zzz", "green dragon", "m.obj", "mock", none⟩]⟩
            ⟨Mode.text, "green dragon", "mock", "smart", none⟩ ⟨"n.obj", 3⟩).2.cache_hit = 2) :=
  C2_smart_gating ⟨[], [], [⟨"zzz", "green dragon", "m.obj", "mock", none⟩]⟩
    ⟨Mode.text, "green dragon", "mock", "smart", none⟩ ⟨"n.obj", 3⟩ rfl (by decide)

/-- C8: when a fresh generation (`cache_hit = 0`) upserts the cache row of a
fingerprint that already has an entry `e`, the resulting cache is the old
cache minus that key plus a new row carrying the new asset location and
resolved provider but `e`'s old `quality_score` (other rows unchanged, in
order); any reuse outcome (`cache_hit` 1 or 2) leaves the cache exactly as
it was — in particular a taken similar-reuse branch (smart policy, no exact
row, gate-passing similarity match) yields `cache_hit = 2` and writes
nothing to the cache. -/
theorem C8_upsert_preserves_quality (st : AppState) (req : Request) (pr : ProviderResult) :
    (∀ e, exactLookup st.prompt_cache
        (request_fingerprint req.mode req.prompt req.image_ref) = some e →
      (generate st req pr).2.cache_hit = 0 →
      (generate st req pr).1.prompt_cache =
        st.prompt_cache.filter
          (fun x => !(x.hash == request_fingerprint req.mode req.prompt req.image_ref))
        ++ [{ hash := request_fingerprint req.mode req.prompt req.image_ref,
              prompt := req.prompt, model_path := pr.out_path,
              provider := providerSlug req.provider_key,
              quality_score := e.quality_score }])
    ∧ ((generate st req pr).2.cache_hit = 1 ∨ (generate st req pr).2.cache_hit = 2 →
      (generate st req pr).1.prompt_cache = st.prompt_cache)
    ∧ (∀ e, exactLookup st.prompt_cache
        (request_fingerprint req.mode req.prompt req.image_ref) = none →
      req.reuse_policy = "smart" →
      find_similar_prompt st.prompt_cache req.prompt simThreshold = some e →
      qualityGate ≤ pyOrQuality e.quality_score →
      (generate st req pr).2.cache_hit = 2
      ∧ (generate st req pr).1.prompt_cache = st.prompt_cache) := by
  refine ⟨?_, ?_, ?_⟩
  · intro e he h0
    by_cases hpol : req.reuse_policy = "always" ∨ req.reuse_policy = "smart"
    · rw [generate_exact st req pr e he hpol] at h0
      exact absurd h0 (by simp [record_generation])
    · rw [generate_exact_skipped st req pr e he hpol]
      show cacheUpsert st.prompt_cache (request_fingerprint req.mode req.prompt req.image_ref)
        req.prompt pr.out_path (providerSlug req.provider_key) = _
      unfold cacheUpsert
      rw [show st.prompt_cache.find?
          (fun x => x.hash == request_fingerprint req.mode req.prompt req.image_ref) =
          some e from he]
      rfl
  · intro h12
    cases hrow : exactLookup st.prompt_cache
        (request_fingerprint req.mode req.prompt req.image_ref) with
    | some r =>
      by_cases hpol : req.reuse_policy = "always" ∨ req.reuse_policy = "smart"
      · rw [generate_exact st req pr r hrow hpol]
        rfl
      · rw [generate_exact_skipped st req pr r hrow hpol] at h12
        rcases h12 with h1 | h2
        · exact absurd h1 (by simp [freshGenerate, record_generation])
        · exact absurd h2 (by simp [freshGenerate, record_generation])
    | none =>
      by_cases hpol : req.reuse_policy = "smart"
      · cases hsim : find_similar_prompt st.prompt_cache req.prompt simThreshold with
        | some sim =>
          by_cases hq : qualityGate ≤ pyOrQuality sim.quality_score
          · rw [generate_similar st req pr sim hrow hpol hsim hq]
            rfl
          · rw [generate_similar_lowq st req pr sim hrow hpol hsim hq] at h12
            rcases h12 with h1 | h2
            · exact absurd h1 (by simp [freshGenerate, record_generation])
            · exact absurd h2 (by simp [freshGenerate, record_generation])
        | none =>
          rw [generate_similar_none st req pr hrow hpol hsim] at h12
          rcases h12 with h1 | h2
          · exact absurd h1 (by simp [freshGenerate, record_generation])
          · exact absurd h2 (by simp [freshGenerate, record_generation])
      · rw [generate_not_smart st req pr hrow hpol] at h12
        rcases h12 with h1 | h2
        · exact absurd h1 (by simp [freshGenerate, record_generation])
        · exact absurd h2 (by simp [freshGenerate, record_generation])
  · intro e hrow hpol hsim hq
    rw [generate_similar st req pr e hrow hpol hsim hq]
    exact ⟨rfl, rfl⟩

/-- C8 witness: a concrete smart request with no exact row and a NULL-score
full-overlap entry, realizing the similar-reuse branch: `cache_hit = 2` and
the cache is untouched (both reuse-no-write conjuncts fire non-vacuously). -/
theorem C8_upsert_preserves_quality_witness :
    (∀ e, exactLookup [⟨"zzz", "pink dragon", "m.obj", "mock", none⟩]
        (request_fingerprint Mode.text "pink dragon" none) = some e →
      (generate ⟨[], [], [⟨"zzz", "pink dragon", "m.obj", "mock", none⟩]⟩
        ⟨Mode.text, "pink dragon", "mock", "smart", none⟩ ⟨"new.obj", 4⟩).2.cache_hit = 0 →
      (generate ⟨[], [], [⟨"zzz", "pink dragon", "m.obj", "mock", none⟩]⟩
        ⟨Mode.text, "pink dragon", "mock", "smart", none⟩ ⟨"new.obj", 4⟩).1.prompt_cache =
        ([⟨"zzz", "pink dragon", "m.obj", "mock", none⟩] : List CacheEntry).filter
          (fun x => !(x.hash == request_fingerprint Mode.text "pink dragon" none))
        ++ [{ hash := request_fingerprint Mode.text "pink dragon" none,
              prompt := "pink dragon", model_path := "new.obj",
              provider := providerSlug "mock",
              quality_score := e.quality_score }])
    ∧ ((generate ⟨[], [], [⟨"zzz", "pink dragon", "m.obj", "mock", none⟩]⟩
          ⟨Mode.text, "pink dragon", "mock", "smart", none⟩ ⟨"new.obj", 4⟩).2.cache_hit = 1
        ∨ (generate ⟨[], [], [⟨"zzz", "pink dragon", "m.obj", "mock", none⟩]⟩
          ⟨Mode.text, "pink dragon", "mock", "smart", none⟩ ⟨"new.obj", 4⟩).2.cache_hit = 2 →
      (generate ⟨[], [], [⟨"zzz", "pink dragon", "m.obj", "mock", none⟩]⟩
        ⟨Mode.text, "pink dragon", "mock", "smart", none⟩ ⟨"new.obj", 4⟩).1.prompt_cache =
        [⟨"zzz", "pink dragon", "m.obj", "mock", none⟩])
    ∧ (∀ e, exactLookup [⟨"zzz", "pink dragon", "m.obj", "mock", none⟩]
        (request_fingerprint Mode.text "pink dragon" none) = none →
      ("smart" : String) = "smart" →
      find_similar_prompt [⟨"zzz", "pink dragon", "m.obj", "mock", none⟩]
        "pink dragon" simThreshold = some e →
      qualityGate ≤ pyOrQuality e.quality_score →
      (generate ⟨[], [], [⟨"zzz", "pink dragon", "m.obj", "mock", none⟩]⟩
        ⟨Mode.text, "pink dragon", "mock", "smart", none⟩ ⟨"new.obj", 4⟩).2.cache_hit = 2
      ∧ (generate ⟨[], [], [⟨"zzz", "pink dragon", "m.obj", "mock", none⟩]⟩
        ⟨Mode.text, "pink dragon", "mock", "smart", none⟩ ⟨"new.obj", 4⟩).1.prompt_cache =
        [⟨"zzz", "pink dragon", "m.obj", "mock", none⟩]) :=
  C8_upsert_preserves_quality ⟨[], [], [⟨"zzz", "pink dragon", "m.obj", "mock", none⟩]⟩
    ⟨Mode.text, "pink dragon", "mock", "smart", none⟩ ⟨"new.obj", 4⟩

/-- The similar-reuse no-write behavior evaluated concretely: the smart
request over a NULL-score full-overlap entry takes the similar branch
(`cache_hit = 2`) and the cache row list is exactly the old one. -/
theorem C8_similar_reuse_no_write_example :
    (generate ⟨[], [], [⟨"zzz", "pink dragon", "m.obj", "mock", none⟩]⟩
        ⟨Mode.text, "pink dragon", "mock", "smart", none⟩ ⟨"new.obj", 4⟩).2.cache_hit = 2
    ∧ (generate ⟨[], [], [⟨"zzz", "pink dragon", "m.obj", "mock", none⟩]⟩
        ⟨Mode.text, "pink dragon", "mock", "smart", none⟩ ⟨"new.obj", 4⟩).1.prompt_cache =
        [⟨"zzz", "pink dragon", "m.obj", "mock", none⟩] := by
  constructor
  · decide
  · decide

/-- The fresh-upsert carry-forward evaluated concretely: a `never`-policy
request over an existing rated row replaces it with the new asset while
keeping the old score `5`. -/
theorem C8_fresh_upsert_example :
    (generate ⟨[], [], [⟨"old prompt", "old prompt", "m.obj", "mock", some 5⟩]⟩
        ⟨Mode.text, "old prompt", "mock", "never", none⟩ ⟨"new.obj", 7⟩).2.cache_hit = 0
    ∧ (generate ⟨[], [], [⟨"old prompt", "old prompt", "m.obj", "mock", some 5⟩]⟩
        ⟨Mode.text, "old prompt", "mock", "never", none⟩ ⟨"new.obj", 7⟩).1.prompt_cache =
        [⟨"old prompt", "old prompt", "new.obj", "mock", some 5⟩] := by
  constructor
  · decide
  · decide

/-- C4: when the rated generation exists and the recomputed prompt-pooled
mean is nonzero (as any mean of 1..5 ratings is), the feedback route appends
the FeedbackRecord and writes into the cache row keyed by the generation's
fingerprint the mean rating over all FeedbackRecords attached to any
GenerationRecord sharing the generation's literal prompt text (pooling is by
prompt text; `updateQuality` touches only a row whose key exists, so the
write is a no-op when no such CacheEntry exists). -/
theorem C4_feedback_mean (st : AppState) (gid : Nat) (rating : Int)
    (iss : List String) (com : String) (g : GenRecord)
    (hg : st.generations.find? (fun x => x.id == gid) = some g)
    (hm : meanRating (pooledRatings st.generations
      (st.feedback ++ [⟨st.feedback.length + 1, gid, rating, iss, com⟩]) g.prompt) ≠ 0) :
    feedback st gid rating iss com =
      { st with
          feedback := st.feedback ++ [⟨st.feedback.length + 1, gid, rating, iss, com⟩],
          prompt_cache := updateQuality st.prompt_cache
            (request_fingerprint g.mode g.prompt g.image_path)
            (meanRating (pooledRatings st.generations
              (st.feedback ++ [⟨st.feedback.length + 1, gid, rating, iss, com⟩])
              g.prompt)) } := by
  have hgid : g.id = gid := by
    have h2 := List.find?_some (show st.generations.find?
      (fun x => x.id == gid) = some g from hg)
    exact eq_of_beq h2
  have hmem : g ∈ st.generations := List.mem_of_find?_eq_some hg
  have hidmem : gid ∈ (st.generations.filter
      (fun x => x.prompt == g.prompt)).map (fun x => x.id) := by
    refine List.mem_map.mpr ⟨g, ?_, hgid⟩
    exact List.mem_filter.mpr ⟨hmem, by simp⟩
  have hP : (((st.generations.filter (fun x => x.prompt == g.prompt)).map
      (fun x => x.id)).contains gid) = true := by
    simpa [List.contains, List.elem_iff] using hidmem
  have hfbmem : (⟨st.feedback.length + 1, gid, rating, iss, com⟩ : FeedbackRecord) ∈
      (st.feedback ++ [(⟨st.feedback.length + 1, gid, rating, iss, com⟩ : FeedbackRecord)]).filter
        (fun f => ((st.generations.filter (fun x => x.prompt == g.prompt)).map
          (fun x => x.id)).contains f.generation_id) := by
    refine List.mem_filter.mpr ⟨by simp, hP⟩
  have hpoolne : pooledRatings st.generations
      (st.feedback ++ [⟨st.feedback.length + 1, gid, rating, iss, com⟩]) g.prompt ≠ [] := by
    unfold pooledRatings
    intro hnil
    rw [List.map_eq_nil_iff] at hnil
    rw [hnil] at hfbmem
    exact absurd hfbmem (List.not_mem_nil _)
  unfold feedback
  simp only [hg]
  rw [if_pos (And.intro hpoolne hm)]

/-- C4 witness: the spec's example — ratings `[5, 3]` for two generations
sharing prompt `"dragon"` set the `"dragon"` entry's score to `4`. -/
theorem C4_feedback_mean_witness :
    feedback ⟨[⟨1, "dragon", Mode.text, none, "mock", "m1.obj", "ok", 7, 0, none⟩,
               ⟨2, "dragon", Mode.text, none, "mock", "m1.obj", "ok", 0, 1, none⟩],
              [⟨1, 1, 5, [], ""⟩],
              [⟨"dragon", "dragon", "m1.obj", "mock", none⟩]⟩ 2 3 [] "" =
      { (⟨[⟨1, "dragon", Mode.text, none, "mock", "m1.obj", "ok", 7, 0, none⟩,
           ⟨2, "dragon", Mode.text, none, "mock", "m1.obj", "ok", 0, 1, none⟩],
          [⟨1, 1, 5, [], ""⟩],
          [⟨"dragon", "dragon", "m1.obj", "mock", none⟩]⟩ : AppState) with
          feedback := [⟨1, 1, 5, [], ""⟩] ++ [⟨2, 2, 3, [], ""⟩],
          prompt_cache := updateQuality [⟨"dragon", "dragon", "m1.obj", "mock", none⟩]
            (request_fingerprint Mode.text "dragon" none)
            (meanRating (pooledRatings
              [⟨1, "dragon", Mode.text, none, "mock", "m1.obj", "ok", 7, 0, none⟩,
               ⟨2, "dragon", Mode.text, none, "mock", "m1.obj", "ok", 0, 1, none⟩]
              ([⟨1, 1, 5, [], ""⟩] ++ [⟨2, 2, 3, [], ""⟩]) "dragon")) } :=
  C4_feedback_mean
    ⟨[⟨1, "dragon", Mode.text, none, "mock", "m1.obj", "ok", 7, 0, none⟩,
      ⟨2, "dragon", Mode.text, none, "mock", "m1.obj", "ok", 0, 1, none⟩],
     [⟨1, 1, 5, [], ""⟩],
     [⟨"dragon", "dragon", "m1.obj", "mock", none⟩]⟩ 2 3 [] ""
    ⟨2, "dragon", Mode.text, none, "mock", "m1.obj", "ok", 0, 1, none⟩
    (by decide) (by decide)

/-- The pooled mean in the C4 witness scenario is indeed `4` and the row is
updated to `some 4`: evaluated consequence of the witness state. -/
theorem C4_dragon_example_value :
    meanRating (pooledRatings
      [⟨1, "dragon", Mode.text, none, "mock", "m1.obj", "ok", 7, 0, none⟩,
       ⟨2, "dragon", Mode.text, none, "mock", "m1.obj", "ok", 0, 1, none⟩]
      [⟨1, 1, 5, [], ""⟩, ⟨2, 2, 3, [], ""⟩] "dragon") = 4
    ∧ (feedback ⟨[⟨1, "dragon", Mode.text, none, "mock", "m1.obj", "ok", 7, 0, none⟩,
                  ⟨2, "dragon", Mode.text, none, "mock", "m1.obj", "ok", 0, 1, none⟩],
                 [⟨1, 1, 5, [], ""⟩],
                 [⟨"dragon", "dragon", "m1.obj", "mock", none⟩]⟩ 2 3 [] "").prompt_cache =
        [⟨"dragon", "dragon", "m1.obj", "mock", some 4⟩] := by
  constructor
  · decide
  · decide

/-- C6 counterexample: `"a"` and `"a "` normalize identically, but in IMAGE
mode (same image reference) their fingerprints differ, because the code
normalizes the concatenation `prompt + "::image@" + ref` and the trailing
space survives as an internal space. -/
theorem C6_counterexample :
    normalize_prompt "a" = normalize_prompt "a "
    ∧ request_fingerprint Mode.image "a" (some "x.png") ≠
        request_fingerprint Mode.image "a " (some "x.png") := by
  constructor
  · decide
  · decide

/-- C6 amended: prompts that normalize identically always share a
fingerprint in TEXT mode; in IMAGE mode the fingerprint is the digest of the
normalized concatenation `prompt ++ "::image@" ++ ref`, so two image
requests share a fingerprint whenever those concatenations normalize
identically — but normalization-equality of the prompts alone does not
suffice (a trailing-whitespace difference changes the key). -/
theorem C6_fingerprint_determinism (p1 p2 : String) (r : Option String)
    (h : normalize_prompt p1 = normalize_prompt p2) :
    request_fingerprint Mode.text p1 r = request_fingerprint Mode.text p2 r
    ∧ (∀ q1 q2 s, normalize_prompt (fingerprint_key Mode.image q1 s) =
          normalize_prompt (fingerprint_key Mode.image q2 s) →
        request_fingerprint Mode.image q1 s = request_fingerprint Mode.image q2 s) := by
  constructor
  · show prompt_hash (fingerprint_key Mode.text p1 r) =
      prompt_hash (fingerprint_key Mode.text p2 r)
    unfold prompt_hash fingerprint_key
    exact h
  · intro q1 q2 s hq
    show prompt_hash (fingerprint_key Mode.image q1 s) =
      prompt_hash (fingerprint_key Mode.image q2 s)
    unfold prompt_hash
    exact hq

/-- C6 witness: the amended statement at concrete case/whitespace variants. -/
theorem C6_fingerprint_determinism_witness :
    request_fingerprint Mode.text "A  b" none = request_fingerprint Mode.text " a b " none
    ∧ (∀ q1 q2 s, normalize_prompt (fingerprint_key Mode.image q1 s) =
          normalize_prompt (fingerprint_key Mode.image q2 s) →
        request_fingerprint Mode.image q1 s = request_fingerprint Mode.image q2 s) :=
  C6_fingerprint_determinism "A  b" " a b " none (by decide)

/-- A character that prompt normalization leaves unchanged: not whitespace
and fixed by lowercasing.  Code-generated image basenames
(`upl_<seconds><lowercased ext>`) consist of such characters. -/
def cleanChar (c : Char) : Bool :=
  !isPySpace c && (Char.toLower c == c)

/-- A string of normalization-invariant characters. -/
def cleanStr (s : String) : Bool :=
  s.data.all cleanChar

/-- dropWhile does nothing on a whitespace-free list. -/
theorem dropWhile_eq_self_of_clean (s : List Char)
    (h : s.all (fun c => !isPySpace c) = true) :
    s.dropWhile isPySpace = s := by
  cases s with
  | nil => rfl
  | cons c rest =>
    simp only [List.all_cons, Bool.and_eq_true, Bool.not_eq_true'] at h
    simp [List.dropWhile_cons, h.1]

/-- Lowercasing does nothing on a lowercase-fixed list. -/
theorem pyLower_eq_self (s : List Char)
    (h : s.all (fun c => Char.toLower c == c) = true) :
    pyLower s = s := by
  induction s with
  | nil => rfl
  | cons c rest ih =>
    simp only [List.all_cons, Bool.and_eq_true] at h
    simp only [pyLower, List.map_cons]
    rw [show Char.toLower c = c from eq_of_beq h.1]
    rw [show rest.map Char.toLower = rest from ih h.2]

/-- Whitespace collapsing does nothing on a whitespace-free list. -/
theorem collapseWS_eq_self : (s : List Char) →
    s.all (fun c => !isPySpace c) = true → collapseWS s = s
  | [], _ => rfl
  | [c], h => by
    simp only [List.all_cons, List.all_nil, Bool.and_true, Bool.not_eq_true'] at h
    simp [collapseWS, h]
  | c :: d :: rest, h => by
    simp only [List.all_cons, Bool.and_eq_true, Bool.not_eq_true'] at h
    have ih := collapseWS_eq_self (d :: rest)
      (by simp [List.all_cons, h.2.1, h.2.2])
    simp [collapseWS, h.1, ih]

/-- Prompt normalization is the identity on clean strings. -/
theorem normalize_eq_self_of_clean (s : String) (h : cleanStr s = true) :
    normalize_prompt s = s := by
  have hall := (List.all_eq_true).mp h
  have hns : s.data.all (fun c => !isPySpace c) = true := by
    refine (List.all_eq_true).mpr ?_
    intro x hx
    exact (Bool.and_eq_true_iff.mp (hall x hx)).1
  have hlc : s.data.all (fun c => Char.toLower c == c) = true := by
    refine (List.all_eq_true).mpr ?_
    intro x hx
    exact (Bool.and_eq_true_iff.mp (hall x hx)).2
  have hnsr : s.data.reverse.all (fun c => !isPySpace c) = true := by
    refine (List.all_eq_true).mpr ?_
    intro x hx
    exact (List.all_eq_true).mp hns x (List.mem_reverse.mp hx)
  have hstrip : pyStrip s.data = s.data := by
    unfold pyStrip
    rw [dropWhile_eq_self_of_clean s.data hns,
        dropWhile_eq_self_of_clean s.data.reverse hnsr,
        List.reverse_reverse]
  show (⟨normalizeChars s.data⟩ : String) = s
  unfold normalizeChars
  rw [hstrip, pyLower_eq_self s.data hlc, collapseWS_eq_self s.data hns]

/-- Strings with equal character data are equal. -/
theorem string_data_inj {s t : String} (h : s.data = t.data) : s = t := by
  cases s
  cases t
  cases h
  rfl

/-- Left cancellation for string append. -/
theorem str_append_cancel_left (s t u : String) (h : s ++ t = s ++ u) : t = u := by
  have hd : s.data ++ t.data = s.data ++ u.data := by
    have h1 : (s ++ t).data = (s ++ u).data := congrArg String.data h
    simpa using h1
  exact string_data_inj (List.append_cancel_left hd)

/-- Appending clean strings is clean. -/
theorem cleanStr_append (s t : String) (hs : cleanStr s = true) (ht : cleanStr t = true) :
    cleanStr (s ++ t) = true := by
  unfold cleanStr at *
  have hd : (s ++ t).data = s.data ++ t.data := by simp
  rw [hd, List.all_append, hs, ht]
  rfl

/-- The IMAGE-mode fingerprint of prompt `"x"` with a clean basename is the
literal key string. -/
theorem image_fingerprint_of_clean (a : String) (hc : cleanStr a = true) :
    request_fingerprint Mode.image "x" (some a) = "x::image@" ++ a := by
  show prompt_hash (("x" : String) ++ "::image@" ++ a) = "x::image@" ++ a
  have h1 : ("x" : String) ++ "::image@" = "x::image@" := by decide
  rw [h1]
  unfold prompt_hash
  exact normalize_eq_self_of_clean _ (cleanStr_append _ _ (by decide) hc)

/-- C7: for a fixed prompt `"x"`, the TEXT fingerprint, the IMAGE
fingerprint with no image, and the IMAGE fingerprints for two distinct
code-generated basenames (clean, and distinct from the `"none"` sentinel)
are pairwise distinct. -/
theorem C7_mode_image_separation (a b : String)
    (hab : a ≠ b) (hcA : cleanStr a = true) (hcB : cleanStr b = true)
    (hnA : a ≠ "none") (hnB : b ≠ "none") :
    request_fingerprint Mode.text "x" none ≠ request_fingerprint Mode.image "x" none
    ∧ request_fingerprint Mode.text "x" none ≠ request_fingerprint Mode.image "x" (some a)
    ∧ request_fingerprint Mode.text "x" none ≠ request_fingerprint Mode.image "x" (some b)
    ∧ request_fingerprint Mode.image "x" none ≠ request_fingerprint Mode.image "x" (some a)
    ∧ request_fingerprint Mode.image "x" none ≠ request_fingerprint Mode.image "x" (some b)
    ∧ request_fingerprint Mode.image "x" (some a) ≠
        request_fingerprint Mode.image "x" (some b) := by
  have htext : request_fingerprint Mode.text "x" none = "x" := by decide
  have himg0 : request_fingerprint Mode.image "x" none = "x::image@none" := by decide
  have himgA := image_fingerprint_of_clean a hcA
  have himgB := image_fingerprint_of_clean b hcB
  have hlen : ∀ u : String, ("x" : String) ≠ "x::image@" ++ u := by
    intro u heq
    have h2 : ("x" : String).length = ("x::image@" ++ u).length := congrArg String.length heq
    rw [String.length_append] at h2
    have h3 : ("x" : String).length = 1 := by decide
    have h4 : ("x::image@" : String).length = 9 := by decide
    omega
  have hsplit : ("x::image@none" : String) = "x::image@" ++ "none" := by decide
  refine ⟨?_, ?_, ?_, ?_, ?_, ?_⟩
  · rw [htext, himg0]
    decide
  · rw [htext, himgA]
    exact hlen a
  · rw [htext, himgB]
    exact hlen b
  · rw [himg0, himgA, hsplit]
    intro heq
    exact hnA (str_append_cancel_left _ _ _ heq).symm
  · rw [himg0, himgB, hsplit]
    intro heq
    exact hnB (str_append_cancel_left _ _ _ heq).symm
  · rw [himgA, himgB]
    intro heq
    exact hab (str_append_cancel_left _ _ _ heq)

/-- C7 witness: two concrete code-generated basenames. -/
theorem C7_mode_image_separation_witness :
    request_fingerprint Mode.text "x" none ≠ request_fingerprint Mode.image "x" none
    ∧ request_fingerprint Mode.text "x" none ≠
        request_fingerprint Mode.image "x" (some "upl_1.png")
    ∧ request_fingerprint Mode.text "x" none ≠
        request_fingerprint Mode.image "x" (some "upl_2.png")
    ∧ request_fingerprint Mode.image "x" none ≠
        request_fingerprint Mode.image "x" (some "upl_1.png")
    ∧ request_fingerprint Mode.image "x" none ≠
        request_fingerprint Mode.image "x" (some "upl_2.png")
    ∧ request_fingerprint Mode.image "x" (some "upl_1.png") ≠
        request_fingerprint Mode.image "x" (some "upl_2.png") :=
  C7_mode_image_separation "upl_1.png" "upl_2.png"
    (by decide) (by decide) (by decide) (by decide) (by decide)

/-- jaccard of an empty query token set is zero. -/
theorem jaccard_empty_left (b : List String) : jaccard [] b = 0 := by
  rw [jaccard_eq_div]
  have h : interCard [] b = 0 := rfl
  rw [h]
  simp

/-- jaccard against an empty entry token set is zero. -/
theorem jaccard_empty_right (q : List String) : jaccard q [] = 0 := by
  rw [jaccard_eq_div]
  have h : interCard q [] = 0 := by
    unfold interCard
    simp [List.contains]
  rw [h]
  simp

/-- jaccard scores are nonnegative. -/
theorem jaccard_nonneg (q t : List String) : 0 ≤ jaccard q t := by
  rw [jaccard_eq_div]
  have hn : (0 : ℚ) ≤ (interCard q t : ℚ) := by positivity
  have hd : (0 : ℚ) ≤ max 1 ((unionCard q t : ℚ)) := by positivity
  exact div_nonneg hn hd

/-- Once the running best is a row, it never becomes `none` again. -/
theorem fsLoop_some_stays (q : List String) : ∀ (rows : List CacheEntry)
    (x : CacheEntry) (s : ℚ), (fsLoop q rows (some x) s).1.isSome = true
  | [], _, _ => rfl
  | r :: rows, x, s => by
    simp only [fsLoop]
    split
    · exact fsLoop_some_stays q rows x s
    · split
      · exact fsLoop_some_stays q rows r _
      · exact fsLoop_some_stays q rows x s

/-- Scan-loop inversion, `none` result: nothing beat the initial score, the
score is unchanged, and every row scores at most the initial score. -/
theorem fsLoop_none_spec (q : List String) : ∀ (rows : List CacheEntry)
    (b : Option CacheEntry) (s s' : ℚ), 0 ≤ s → fsLoop q rows b s = (none, s') →
    b = none ∧ s' = s ∧ ∀ r ∈ rows, jaccard q (tokenList r.prompt) ≤ s
  | [], b, s, s', _, heq => by
    injection heq with h1 h2
    exact ⟨h1, h2.symm, by simp⟩
  | r :: rows, b, s, s', h0, heq => by
    simp only [fsLoop] at heq
    by_cases he : (tokenList r.prompt).isEmpty
    · rw [if_pos he] at heq
      obtain ⟨hb, hs, hall⟩ := fsLoop_none_spec q rows b s s' h0 heq
      refine ⟨hb, hs, ?_⟩
      intro r' hr'
      rcases List.mem_cons.mp hr' with h | h
      · subst h
        rw [List.isEmpty_iff.mp he, jaccard_empty_right]
        exact h0
      · exact hall r' h
    · rw [if_neg he] at heq
      by_cases hlt : s < jaccard q (tokenList r.prompt)
      · rw [if_pos hlt] at heq
        have hstay := fsLoop_some_stays q rows r (jaccard q (tokenList r.prompt))
        rw [heq] at hstay
        cases hstay
      · rw [if_neg hlt] at heq
        obtain ⟨hb, hs, hall⟩ := fsLoop_none_spec q rows b s s' h0 heq
        refine ⟨hb, hs, ?_⟩
        intro r' hr'
        rcases List.mem_cons.mp hr' with h | h
        · subst h
          exact le_of_not_lt hlt
        · exact hall r' h

/-- Scan-loop inversion, `some` result: either the initial best survived
with nothing beating the initial score, or the returned row is the first
row attaining the final score, every earlier row scoring strictly less and
every later row at most the final score. -/
theorem fsLoop_some_spec (q : List String) : ∀ (rows : List CacheEntry)
    (b : Option CacheEntry) (s : ℚ) (e : CacheEntry) (s' : ℚ),
    0 ≤ s → fsLoop q rows b s = (some e, s') →
    (b = some e ∧ s' = s ∧ ∀ r ∈ rows, jaccard q (tokenList r.prompt) ≤ s)
    ∨ (∃ pre suf, rows = pre ++ e :: suf
        ∧ (tokenList e.prompt).isEmpty = false
        ∧ s' = jaccard q (tokenList e.prompt)
        ∧ s < s'
        ∧ (∀ r ∈ pre, jaccard q (tokenList r.prompt) < s')
        ∧ (∀ r ∈ suf, jaccard q (tokenList r.prompt) ≤ s'))
  | [], b, s, e, s', _, heq => by
    injection heq with h1 h2
    exact Or.inl ⟨h1, h2.symm, by simp⟩
  | r :: rows, b, s, e, s', h0, heq => by
    simp only [fsLoop] at heq
    by_cases he : (tokenList r.prompt).isEmpty
    · rw [if_pos he] at heq
      rcases fsLoop_some_spec q rows b s e s' h0 heq with ⟨hb, hs, hall⟩ | hright
      · refine Or.inl ⟨hb, hs, ?_⟩
        intro r' hr'
        rcases List.mem_cons.mp hr' with h | h
        · subst h
          rw [List.isEmpty_iff.mp he, jaccard_empty_right]
          exact h0
        · exact hall r' h
      · obtain ⟨pre, suf, hrows, hne, hs', hpos, hpre, hsuf⟩ := hright
        refine Or.inr ⟨r :: pre, suf, ?_, hne, hs', hpos, ?_, hsuf⟩
        · rw [hrows]
          rfl
        · intro r' hr'
          rcases List.mem_cons.mp hr' with h | h
          · subst h
            rw [List.isEmpty_iff.mp he, jaccard_empty_right]
            exact lt_of_le_of_lt h0 hpos
          · exact hpre r' h
    · rw [if_neg he] at heq
      by_cases hlt : s < jaccard q (tokenList r.prompt)
      · rw [if_pos hlt] at heq
        have h0' : (0 : ℚ) ≤ jaccard q (tokenList r.prompt) := jaccard_nonneg q _
        rcases fsLoop_some_spec q rows (some r) (jaccard q (tokenList r.prompt)) e s'
            h0' heq with ⟨hb, hs, hall⟩ | hright
        · cases Option.some.inj hb
          refine Or.inr ⟨[], rows, rfl, ?_, hs, ?_, by simp, ?_⟩
          · exact Bool.not_eq_true _ ▸ (by simpa using he)
          · rw [hs]
            exact hlt
          · intro r' hr'
            rw [hs]
            exact hall r' hr'
        · obtain ⟨pre, suf, hrows, hne, hs', hpos, hpre, hsuf⟩ := hright
          refine Or.inr ⟨r :: pre, suf, ?_, hne, hs', lt_trans hlt hpos, ?_, hsuf⟩
          · rw [hrows]
            rfl
          · intro r' hr'
            rcases List.mem_cons.mp hr' with h | h
            · subst h
              exact hpos
            · exact hpre r' h
      · rw [if_neg hlt] at heq
        rcases fsLoop_some_spec q rows b s e s' h0 heq with ⟨hb, hs, hall⟩ | hright
        · refine Or.inl ⟨hb, hs, ?_⟩
          intro r' hr'
          rcases List.mem_cons.mp hr' with h | h
          · subst h
            exact le_of_not_lt hlt
          · exact hall r' h
        · obtain ⟨pre, suf, hrows, hne, hs', hpos, hpre, hsuf⟩ := hright
          refine Or.inr ⟨r :: pre, suf, ?_, hne, hs', hpos, ?_, hsuf⟩
          · rw [hrows]
            rfl
          · intro r' hr'
            rcases List.mem_cons.mp hr' with h | h
            · subst h
              exact lt_of_le_of_lt (le_of_not_lt hlt) hpos
            · exact hpre r' h

/-- Token `tN` used by the threshold-boundary examples. -/
def tokenWord (i : Nat) : String := "t" ++ toString i

/-- Prompt with tokens `t0 … t(n-1)` separated by single spaces. -/
def promptOfRange (n : Nat) : String :=
  String.intercalate " " ((List.range n).map tokenWord)

/-- Hundred-token query prompt for the threshold boundary. -/
def q100 : String := promptOfRange 100

/-- Entry sharing 92 of the 100 query tokens: Jaccard exactly `0.92`. -/
def entry92 : CacheEntry := ⟨"h92", promptOfRange 92, "m92.obj", "mock", none⟩

/-- Entry sharing 91 of the 100 query tokens: Jaccard exactly `0.91`. -/
def entry91 : CacheEntry := ⟨"h91", promptOfRange 91, "m91.obj", "mock", none⟩

set_option maxRecDepth 1000000 in
/-- C3: for every query prompt and cache table and positive threshold,
`find_similar_prompt` computes Jaccard similarity over the normalized token
sets (never dividing by zero, thanks to the `max 1` denominator), returns no
match when the query token set is empty, and otherwise returns the first
entry attaining the maximal score if and only if that score reaches the
threshold (soundness and completeness below); at threshold `0.92` a pair
with Jaccard exactly `0.92` is eligible and a pair at `0.91` is not. -/
theorem C3_find_similar_spec (cache : List CacheEntry) (p : String) (t : ℚ) (ht : 0 < t) :
    (tokenList p = [] → find_similar_prompt cache p t = none)
    ∧ (∀ xs ys : List String,
        jaccard xs ys = (interCard xs ys : ℚ) / (max 1 ((unionCard xs ys : ℚ))))
    ∧ (∀ e, find_similar_prompt cache p t = some e →
        t ≤ jaccard (tokenList p) (tokenList e.prompt)
        ∧ ∃ pre suf, cache = pre ++ e :: suf
            ∧ (∀ r ∈ pre, jaccard (tokenList p) (tokenList r.prompt) <
                jaccard (tokenList p) (tokenList e.prompt))
            ∧ (∀ r ∈ suf, jaccard (tokenList p) (tokenList r.prompt) ≤
                jaccard (tokenList p) (tokenList e.prompt)))
    ∧ ((∃ r ∈ cache, t ≤ jaccard (tokenList p) (tokenList r.prompt)) →
        ∃ e, find_similar_prompt cache p t = some e)
    ∧ jaccard (tokenList q100) (tokenList entry92.prompt) = mkRat 92 100
    ∧ find_similar_prompt [entry92] q100 simThreshold = some entry92
    ∧ jaccard (tokenList q100) (tokenList entry91.prompt) = mkRat 91 100
    ∧ find_similar_prompt [entry91] q100 simThreshold = none := by
  refine ⟨?_, ?_, ?_, ?_, ?_, ?_, ?_, ?_⟩
  · intro h
    simp [find_similar_prompt, h]
  · exact jaccard_eq_div
  · intro e he
    simp only [find_similar_prompt] at he
    split at he
    · exact absurd he (by simp)
    · split at he
      · rename_i b s hfs
        split at he
        · rename_i hts
          injection he with hbe
          subst hbe
          rcases fsLoop_some_spec (tokenList p) cache none 0 b s le_rfl hfs with
            ⟨hb, -, -⟩ | hr
          · exact Option.noConfusion hb
          · obtain ⟨pre, suf, hrows, -, hs', -, hpre, hsuf⟩ := hr
            constructor
            · rw [← hs']
              exact hts
            · refine ⟨pre, suf, hrows, ?_, ?_⟩
              · rw [← hs']
                exact hpre
              · rw [← hs']
                exact hsuf
        · exact absurd he (by simp)
      · exact absurd he (by simp)
  · rintro ⟨r0, hr0mem, hr0⟩
    unfold find_similar_prompt
    by_cases hemp : (tokenList p).isEmpty
    · exfalso
      rw [List.isEmpty_iff.mp hemp, jaccard_empty_left] at hr0
      exact absurd (lt_of_lt_of_le ht hr0) (lt_irrefl 0)
    · rw [if_neg hemp]
      rcases hfs : fsLoop (tokenList p) cache none 0 with ⟨ob, s⟩
      cases ob with
      | none =>
        exfalso
        obtain ⟨-, hs, hall⟩ := fsLoop_none_spec (tokenList p) cache none 0 s le_rfl hfs
        exact absurd (lt_of_lt_of_le ht (le_trans hr0 (hall r0 hr0mem))) (lt_irrefl 0)
      | some b =>
        by_cases hts : t ≤ s
        · refine ⟨b, ?_⟩
          simp [hts]
        · exfalso
          rcases fsLoop_some_spec (tokenList p) cache none 0 b s le_rfl hfs with
            ⟨hb, -, -⟩ | hr
          · exact Option.noConfusion hb
          · obtain ⟨pre, suf, hrows, -, hs', -, hpre, hsuf⟩ := hr
            have hball : ∀ r ∈ cache, jaccard (tokenList p) (tokenList r.prompt) ≤ s := by
              rw [hrows]
              intro r hr
              rcases List.mem_append.mp hr with h | h
              · exact le_of_lt (hpre r h)
              · rcases List.mem_cons.mp h with h1 | h1
                · subst h1
                  exact le_of_eq hs'.symm
                · exact hsuf r h1
            exact absurd (lt_of_le_of_lt (le_trans hr0 (hball r0 hr0mem))
              (not_le.mp hts)) (lt_irrefl t)
  · decide
  · decide
  · decide
  · decide

/-- C3 witness: the specification applied at a concrete positive threshold
(the boundary facts in the conclusion are threshold-independent). -/
theorem C3_find_similar_spec_witness :
    (tokenList "a" = [] → find_similar_prompt [] "a" 1 = none)
    ∧ (∀ xs ys : List String,
        jaccard xs ys = (interCard xs ys : ℚ) / (max 1 ((unionCard xs ys : ℚ))))
    ∧ (∀ e, find_similar_prompt [] "a" 1 = some e →
        1 ≤ jaccard (tokenList "a") (tokenList e.prompt)
        ∧ ∃ pre suf, ([] : List CacheEntry) = pre ++ e :: suf
            ∧ (∀ r ∈ pre, jaccard (tokenList "a") (tokenList r.prompt) <
                jaccard (tokenList "a") (tokenList e.prompt))
            ∧ (∀ r ∈ suf, jaccard (tokenList "a") (tokenList r.prompt) ≤
                jaccard (tokenList "a") (tokenList e.prompt)))
    ∧ ((∃ r ∈ ([] : List CacheEntry),
          (1 : ℚ) ≤ jaccard (tokenList "a") (tokenList r.prompt)) →
        ∃ e, find_similar_prompt [] "a" 1 = some e)
    ∧ jaccard (tokenList q100) (tokenList entry92.prompt) = mkRat 92 100
    ∧ find_similar_prompt [entry92] q100 simThreshold = some entry92
    ∧ jaccard (tokenList q100) (tokenList entry91.prompt) = mkRat 91 100
    ∧ find_similar_prompt [entry91] q100 simThreshold = none :=
  C3_find_similar_spec [] "a" 1 (by decide)

end OfferApp
